import Mathlib

/-!
Verification development for the roman_xmatch core: the footprint-membership
engine (roman_xmatch/crossmatch.py), the footprint registry
(roman_xmatch/footprints.py) and the orchestration pipeline
(roman_xmatch/pipeline.py), shallowly embedded in Lean.

Floating-point angles are modelled as rationals.  Calls into the external
astronomy libraries (astropy coordinate transforms and separations, healpy
pixel resolution) are abstracted as parameters gathered in `AstroPrims`:
the properties proved here are structural and hold for every behaviour of
those primitives.  Exceptions are modelled with `Except String`, a raised
exception carrying its message string (Python `str(exc)`).
-/

/-- Lower-casing of a key string (Python str.lower on the ASCII survey and
catalog keys), written over the character list so it evaluates by kernel
reduction. -/
def strLower (s : String) : String := String.mk (s.data.map Char.toLower)

/-- Sky position: one (RA, Dec) pair in decimal degrees, ICRS frame.
Catalog rows are identified with their positions, the only row content the
core consults. -/
structure Pos where
  ra : ℚ
  dec : ℚ
deriving Repr, DecidableEq

/-- One circular survey field from a footprint definition dict:
label, ICRS centre and radius in degrees (footprints.py field dicts). -/
structure SurveyField where
  label : String
  ra : ℚ
  dec : ℚ
  radius_deg : ℚ
deriving Repr, DecidableEq

/-- Footprint definition dict from roman_xmatch.footprints, totalised as a
structure.  The engine reads `gal_lat_min`, `ecl_lat_min`, `dec_max` only when
`ftype = "sky_cuts"` and `fields` only when `ftype = "circles"`, mirroring the
key accesses performed on the Python dict. -/
structure Footprint where
  name : String
  description : String
  ftype : String
  gal_lat_min : ℚ := 0
  ecl_lat_min : ℚ := 0
  dec_max : ℚ := 0
  fields : List SurveyField := []
  area_deg2 : ℚ := 0

/-- External HEALPix mask: per-pixel values plus the nside resolution
parameter.  load_healpix_mask returns the pair (hpmap, nside); the pipeline
only ever passes the two together, so they are bundled here. -/
structure HealpixMask where
  value : ℕ → ℚ
  nside : ℕ

/-- Astronomy-library primitives used by the source (astropy and healpy
calls), abstracted as parameters of the embedding:
`radians` is np.radians, `ang2pix` is hp.ang2pix (nside, theta, phi),
`sepDeg` is SkyCoord.separation(...).deg, `galLatDeg` is coords.galactic.b.deg,
`eclLatDeg` is the BarycentricTrueEcliptic latitude, `galToICRS` converts a
Galactic (l, b) pair to ICRS, and `hasHealpy` is the HAS_HEALPY flag. -/
structure AstroPrims where
  hasHealpy : Bool
  radians : ℚ → ℚ
  ang2pix : ℕ → ℚ → ℚ → ℕ
  sepDeg : Pos → Pos → ℚ
  galLatDeg : Pos → ℚ
  eclLatDeg : Pos → ℚ
  galToICRS : ℚ → ℚ → Pos

/-- Per-position HEALPix-mask test from the mask branch of
points_in_footprint: theta = radians (90 - dec), phi = radians ra,
pixel = ang2pix nside theta phi, inside when the mask value there is > 0. -/
def maskTest (P : AstroPrims) (m : HealpixMask) (p : Pos) : Bool :=
  decide (m.value (P.ang2pix m.nside (P.radians (90 - p.dec)) (P.radians p.ra)) > 0)

/-- Per-position test for a "circles" footprint: the OR-accumulation
`inside |= separation <= radius` over the field list. -/
def circlesTest (P : AstroPrims) (fields : List SurveyField) (p : Pos) : Bool :=
  fields.any (fun f => decide (P.sepDeg p ⟨f.ra, f.dec⟩ ≤ f.radius_deg))

/-- Per-position test for a "sky_cuts" footprint: conjunction of the three
inclusive comparisons from points_in_footprint. -/
def skyCutsTest (P : AstroPrims) (fp : Footprint) (p : Pos) : Bool :=
  decide (|P.galLatDeg p| ≥ fp.gal_lat_min) &&
  decide (|P.eclLatDeg p| ≥ fp.ecl_lat_min) &&
  decide (p.dec ≤ fp.dec_max)

/-- Embedding of crossmatch.points_in_footprint.  Branch order follows the
source: external mask first (requiring healpy), then "circles", then
"sky_cuts", else ValueError. -/
def pointsInFootprint (P : AstroPrims) (positions : List Pos) (footprint : Footprint)
    (healpixMask : Option HealpixMask) : Except String (List Bool) :=
  match healpixMask with
  | some m =>
      if P.hasHealpy then
        .ok (positions.map (maskTest P m))
      else
        .error "healpy is required to use a HEALPix mask."
  | none =>
      if footprint.ftype = "circles" then
        .ok (positions.map (circlesTest P footprint.fields))
      else if footprint.ftype = "sky_cuts" then
        .ok (positions.map (skyCutsTest P footprint))
      else
        .error ("Unknown footprint type: " ++ footprint.ftype)

/-- Proposition read of `maskTest`: the mask pixel resolved from
theta = 90 - dec, phi = ra at the mask resolution holds a positive value. -/
def MaskInside (P : AstroPrims) (m : HealpixMask) (p : Pos) : Prop :=
  m.value (P.ang2pix m.nside (P.radians (90 - p.dec)) (P.radians p.ra)) > 0

/-- Proposition read of `circlesTest`: some field contains the position
within its radius, boundary included. -/
def CirclesInside (P : AstroPrims) (fields : List SurveyField) (p : Pos) : Prop :=
  ∃ f ∈ fields, P.sepDeg p ⟨f.ra, f.dec⟩ ≤ f.radius_deg

/-- Proposition read of `skyCutsTest`: all three inclusive cuts hold. -/
def SkyCutsInside (P : AstroPrims) (fp : Footprint) (p : Pos) : Prop :=
  |P.galLatDeg p| ≥ fp.gal_lat_min ∧ |P.eclLatDeg p| ≥ fp.ecl_lat_min ∧
    p.dec ≤ fp.dec_max

/-- Supported survey keys (footprints.SURVEY_KEYS). -/
def SURVEY_KEYS : List String := ["hlwas", "hltds", "gbtds"]

/-- Supported catalog keys (catalogs.CATALOG_KEYS). -/
def CATALOG_KEYS : List String := ["abell", "sdss", "2masx", "ngc", "ned", "custom"]

/-- Embedding of footprints.get_hlwas_footprint. -/
def get_hlwas_footprint : Footprint :=
  { name := "HLWAS",
    description := "High Latitude Wide Area Survey (~5,000 deg²)",
    ftype := "sky_cuts",
    gal_lat_min := 20,
    ecl_lat_min := 15,
    dec_max := 30,
    area_deg2 := 5000 }

/-- Embedding of footprints.get_hltds_footprint. -/
def get_hltds_footprint : Footprint :=
  { name := "HLTDS",
    description := "High Latitude Time Domain Survey (~18 deg², 2 fields)",
    ftype := "circles",
    fields := [
      { label := "ELAIS-N1 (North)", ra := 242.75, dec := 54.98, radius_deg := 2.4 },
      { label := "EDFS (South)", ra := 59.10, dec := -49.32, radius_deg := 2.4 }] }

/-- GBTDS pointing centres in Galactic (l, b) degrees. -/
def gbtds_pointing_lb : List (ℚ × ℚ) :=
  [(-0.418, -1.2), (-0.009, -1.2), (0.4, -1.2), (0.809, -1.2), (1.218, -1.2), (0, -0.125)]

/-- GBTDS field labels as formatted by the source f-string. -/
def gbtds_field_labels : List String :=
  ["GBTDS Field 1  (l=-0.418, b=-1.200)",
   "GBTDS Field 2  (l=-0.009, b=-1.200)",
   "GBTDS Field 3  (l=0.400, b=-1.200)",
   "GBTDS Field 4  (l=0.809, b=-1.200)",
   "GBTDS Field 5  (l=1.218, b=-1.200)",
   "GBTDS Field 6  (l=0.000, b=-0.125)"]

/-- Embedding of footprints.get_gbtds_footprint: field centres are the
galactic-to-ICRS transform of the pointings, radius 0.30 degrees each. -/
def get_gbtds_footprint (P : AstroPrims) : Footprint :=
  { name := "GBTDS",
    description := "Galactic Bulge Time Domain Survey (~2 deg², 6 pointings)",
    ftype := "circles",
    fields := (gbtds_field_labels.zip gbtds_pointing_lb).map (fun x =>
      let c := P.galToICRS x.2.1 x.2.2
      { label := x.1, ra := c.ra, dec := c.dec, radius_deg := 0.3 }) }

/-- Embedding of footprints.get_footprint: lower-case the key, dispatch to
the three definitions, ValueError otherwise. -/
def get_footprint (P : AstroPrims) (survey_key : String) : Except String Footprint :=
  let key := strLower survey_key
  if key = "hlwas" then .ok get_hlwas_footprint
  else if key = "hltds" then .ok get_hltds_footprint
  else if key = "gbtds" then .ok (get_gbtds_footprint P)
  else .error ("Unknown survey " ++ survey_key)

/-- Embedding of pipeline.PipelineOptions with the source defaults. -/
structure PipelineOptions where
  surveys : List String := ["hlwas"]
  catalogs : List String := ["abell", "ngc"]
  mask_path : Option String := none
  output_dir : String := "roman_xmatch_output"
  row_limit : ℕ := 100000
  custom_file : Option String := none
  custom_ra_col : String := "RA"
  custom_dec_col : String := "Dec"

/-- Embedding of pipeline.MatchResult. -/
structure MatchResult where
  survey : String
  catalog : String
  n_retrieved : ℕ
  n_matched : ℕ
  fits_path : String
  csv_path : String
  error : Option String := none
deriving Repr, DecidableEq

/-- Collaborator boundary of the pipeline: the catalog fetch adapter, the
mask loader (load_healpix_mask: fails when healpy is missing or the file is
unreadable), the output writer and the column normaliser, plus the astronomy
primitives used by the engine.  Fetch receives exactly the arguments the
source passes: catalog key, row limit, footprint, mask, custom-file options. -/
structure PipelineEnv where
  prims : AstroPrims
  loadMask : String → Except String HealpixMask
  fetchCatalog : String → ℕ → Footprint → Option HealpixMask → Option String →
    String → String → Except String (Option (List Pos))
  writeOutputs : List Pos → String → String → String → String × String
  ensureRequiredColumns : List Pos → String → List Pos

/-- Resolution of the "all" shorthand for surveys (pipeline.py line 78). -/
def resolveSurveys (opts : PipelineOptions) : List String :=
  if opts.surveys.contains "all" then SURVEY_KEYS else opts.surveys

/-- Resolution of the "all" shorthand for catalogs plus the conditional
append of "custom" (pipeline.py lines 79-85). -/
def resolveCatalogs (opts : PipelineOptions) : List String :=
  let catalogs := if opts.catalogs.contains "all" then
      CATALOG_KEYS.filter (fun k => k ≠ "custom")
    else opts.catalogs
  if opts.catalogs.contains "custom" && opts.custom_file.isSome &&
      !(catalogs.contains "custom") then
    catalogs ++ ["custom"]
  else catalogs

/-- First key of the list whose lower-cased form is not in the supported
set — the key on which the source validation loop raises, if any. -/
def findInvalid (supported : List String) (keys : List String) : Option String :=
  keys.find? (fun k => !(supported.contains (strLower k)))

/-- Boolean-mask row selection, `table[inside]` on matched-length arrays. -/
def selectRows (table : List Pos) (inside : List Bool) : List Pos :=
  ((table.zip inside).filter (fun rb => rb.2)).map (fun rb => rb.1)

/-- One (survey, catalog) combination of the pipeline loop body
(pipeline.py lines 112-194): fetch, the empty/None check, the footprint
filter skipped for the "ned" key, and the result record of each path. -/
def process_combo (env : PipelineEnv) (opts : PipelineOptions) (m : Option HealpixMask)
    (footprint : Footprint) (survey_key cat_key : String) : MatchResult :=
  match env.fetchCatalog cat_key opts.row_limit footprint m opts.custom_file
      opts.custom_ra_col opts.custom_dec_col with
  | .error exc =>
      { survey := survey_key, catalog := cat_key, n_retrieved := 0, n_matched := 0,
        fits_path := "", csv_path := "", error := some exc }
  | .ok none =>
      { survey := survey_key, catalog := cat_key, n_retrieved := 0, n_matched := 0,
        fits_path := "", csv_path := "", error := none }
  | .ok (some table) =>
      if table.length = 0 then
        { survey := survey_key, catalog := cat_key, n_retrieved := 0, n_matched := 0,
          fits_path := "", csv_path := "", error := none }
      else
        let filtered : Except String (List Pos) :=
          if cat_key ≠ "ned" then
            (pointsInFootprint env.prims table footprint m).map (selectRows table)
          else .ok table
        match filtered with
        | .error exc =>
            { survey := survey_key, catalog := cat_key, n_retrieved := table.length,
              n_matched := 0, fits_path := "", csv_path := "", error := some exc }
        | .ok kept =>
            if kept.length = 0 then
              { survey := survey_key, catalog := cat_key, n_retrieved := table.length,
                n_matched := 0, fits_path := "", csv_path := "", error := none }
            else
              let final := env.ensureRequiredColumns kept cat_key
              let paths := env.writeOutputs final footprint.name cat_key opts.output_dir
              { survey := survey_key, catalog := cat_key, n_retrieved := table.length,
                n_matched := kept.length, fits_path := paths.1, csv_path := paths.2,
                error := none }

/-- Outer survey loop (pipeline.py lines 105-194): the footprint is resolved
per survey via the registry — an error there propagates and aborts the run,
as the uncaught Python exception would. -/
def run_surveys (env : PipelineEnv) (opts : PipelineOptions) (m : Option HealpixMask)
    (catalogs : List String) : List String → Except String (List MatchResult)
  | [] => .ok []
  | s :: rest =>
      match get_footprint env.prims s with
      | .error e => .error e
      | .ok fp =>
          match run_surveys env opts m catalogs rest with
          | .error e => .error e
          | .ok tail => .ok (catalogs.map (process_combo env opts m fp s) ++ tail)

/-- Embedding of pipeline.run_pipeline: resolve shorthands, validate every
survey and catalog key (first invalid key raises), load the external mask if
requested (a load failure raises), then process the survey × catalog matrix. -/
def run_pipeline (env : PipelineEnv) (opts : PipelineOptions) :
    Except String (List MatchResult) :=
  let surveys := resolveSurveys opts
  let catalogs := resolveCatalogs opts
  match findInvalid SURVEY_KEYS surveys with
  | some s => .error ("Unknown survey " ++ s)
  | none =>
      match findInvalid CATALOG_KEYS catalogs with
      | some c => .error ("Unknown catalog " ++ c)
      | none =>
          match opts.mask_path with
          | some p =>
              match env.loadMask p with
              | .error e => .error e
              | .ok hm => run_surveys env opts (some hm) catalogs surveys
          | none => run_surveys env opts none catalogs surveys

/-- Footprint returned by the registry for a valid key (a placeholder for
invalid ones, on which the pipeline never relies post-validation). -/
def footprintOf (P : AstroPrims) (s : String) : Footprint :=
  match get_footprint P s with
  | .ok fp => fp
  | .error _ => { name := "", description := "", ftype := "" }

/-- Mask the run operates with: the loaded mask when a path is given and the
load succeeds, none otherwise. -/
def maskOf (env : PipelineEnv) (opts : PipelineOptions) : Option HealpixMask :=
  match opts.mask_path with
  | none => none
  | some p => (env.loadMask p).toOption

/-- Concrete primitives for witness instantiations. -/
def testPrims : AstroPrims :=
  { hasHealpy := true,
    radians := fun x => x,
    ang2pix := fun _ _ _ => 0,
    sepDeg := fun _ _ => 0,
    galLatDeg := fun _ => 0,
    eclLatDeg := fun _ => 0,
    galToICRS := fun l b => ⟨l, b⟩ }

/-- Concrete mask for witness instantiations. -/
def testMask : HealpixMask := { value := fun _ => 1, nside := 4 }

/-- Options with every default (surveys hlwas, catalogs abell and ngc). -/
def defaultOpts : PipelineOptions := {}

/-- Options selecting a single (survey, catalog) combination. -/
def oneComboOpts : PipelineOptions :=
  { surveys := ["hlwas"], catalogs := ["abell"] }

/-- Options requesting an unknown survey key. -/
def badKeyOpts : PipelineOptions :=
  { surveys := ["nope"], catalogs := ["abell"] }

/-- Options requesting an external mask for a single combination. -/
def maskRunOpts : PipelineOptions :=
  { surveys := ["hlwas"], catalogs := ["abell"], mask_path := some "mask.fits" }

/-- Options using the "all" catalog shorthand together with an explicit
"custom" request and a custom file. -/
def allCustomOpts : PipelineOptions :=
  { catalogs := ["all", "custom"], custom_file := some "mycat.fits" }

/-- Benign collaborator environment: the mask loads, every fetch returns no
rows, writes succeed. -/
def okEnv : PipelineEnv :=
  { prims := testPrims,
    loadMask := fun _ => .ok testMask,
    fetchCatalog := fun _ _ _ _ _ _ _ => .ok none,
    writeOutputs := fun _ _ _ _ => ("", ""),
    ensureRequiredColumns := fun t _ => t }

/-- Environment whose fetch adapter raises an exception with an empty
message — Python `raise Exception("")`, for which `str(exc)` is `""`. -/
def emptyMsgEnv : PipelineEnv :=
  { prims := testPrims,
    loadMask := fun _ => .ok testMask,
    fetchCatalog := fun _ _ _ _ _ _ _ => .error "",
    writeOutputs := fun _ _ _ _ => ("", ""),
    ensureRequiredColumns := fun t _ => t }

/-- Environment whose fetch adapter reports the name of the footprint it was
handed, making the survey-footprint argument of the fetch call observable. -/
def fpProbeEnv : PipelineEnv :=
  { prims := testPrims,
    loadMask := fun _ => .ok testMask,
    fetchCatalog := fun _ _ fp _ _ _ _ => .error ("fetch saw footprint " ++ fp.name),
    writeOutputs := fun _ _ _ _ => ("", ""),
    ensureRequiredColumns := fun t _ => t }

/-- Environment whose fetch adapter returns one concrete row and whose
writer returns fixed artifact paths. -/
def oneRowEnv : PipelineEnv :=
  { prims := testPrims,
    loadMask := fun _ => .ok testMask,
    fetchCatalog := fun _ _ _ _ _ _ _ => .ok (some [⟨1, 2⟩]),
    writeOutputs := fun _ _ _ _ => ("f.fits", "f.csv"),
    ensureRequiredColumns := fun t _ => t }

/-- Boolean mask test agrees with its proposition read. -/
theorem maskTest_eq_true_iff (P : AstroPrims) (m : HealpixMask) (p : Pos) :
    maskTest P m p = true ↔ MaskInside P m p := by
  simp [maskTest, MaskInside]

/-- Boolean circles test agrees with its proposition read. -/
theorem circlesTest_eq_true_iff (P : AstroPrims) (fields : List SurveyField) (p : Pos) :
    circlesTest P fields p = true ↔ CirclesInside P fields p := by
  simp [circlesTest, CirclesInside]

/-- Boolean sky-cuts test agrees with its proposition read. -/
theorem skyCutsTest_eq_true_iff (P : AstroPrims) (fp : Footprint) (p : Pos) :
    skyCutsTest P fp p = true ↔ SkyCutsInside P fp p := by
  simp [skyCutsTest, SkyCutsInside, and_assoc]

/-- C1: when a pixel mask is provided to the membership test (healpy
available), the footprint geometry is never consulted — the result is
identical for every footprint — and each position's result is exactly
whether the mask value at the pixel resolved from theta = 90° − Dec,
phi = RA (in radians) at the mask's nside is positive; in particular a
position failing every geometric cut is inside whenever that value is
positive. -/
theorem mask_priority_pointwise (P : AstroPrims) (positions : List Pos)
    (fp fp' : Footprint) (m : HealpixMask) (hH : P.hasHealpy = true) :
    (pointsInFootprint P positions fp (some m) =
      pointsInFootprint P positions fp' (some m)) ∧
    ∃ bs, pointsInFootprint P positions fp (some m) = .ok bs ∧
      bs.length = positions.length ∧
      ∀ (i : ℕ) (h1 : i < positions.length) (h2 : i < bs.length),
        (bs[i] = true ↔ MaskInside P m positions[i]) := by
  refine ⟨rfl, positions.map (maskTest P m), ?_, by simp, ?_⟩
  · simp [pointsInFootprint, hH]
  · intro i h1 h2
    simp [maskTest_eq_true_iff]

/-- C1 witness at a concrete batch, mask and footprint pair. -/
theorem mask_priority_pointwise_w :
    testPrims.hasHealpy = true ∧
    pointsInFootprint testPrims [(⟨150, -30⟩ : Pos)] get_hlwas_footprint (some testMask) =
      pointsInFootprint testPrims [(⟨150, -30⟩ : Pos)] get_hltds_footprint (some testMask) :=
  ⟨rfl, (mask_priority_pointwise testPrims [(⟨150, -30⟩ : Pos)] get_hlwas_footprint
      get_hltds_footprint testMask rfl).1⟩

/-- C2: with no mask and a "sky_cuts" footprint, a position is classified
inside iff its absolute galactic latitude is ≥ gal_lat_min, its absolute
ecliptic latitude is ≥ ecl_lat_min and its declination is ≤ dec_max — the
inclusive conjunction of all three cuts, with no OR branch. -/
theorem sky_cuts_membership (P : AstroPrims) (positions : List Pos) (fp : Footprint)
    (hT : fp.ftype = "sky_cuts") :
    ∃ bs, pointsInFootprint P positions fp none = .ok bs ∧
      bs.length = positions.length ∧
      ∀ (i : ℕ) (h1 : i < positions.length) (h2 : i < bs.length),
        (bs[i] = true ↔
          (|P.galLatDeg positions[i]| ≥ fp.gal_lat_min ∧
           |P.eclLatDeg positions[i]| ≥ fp.ecl_lat_min ∧
           positions[i].dec ≤ fp.dec_max)) := by
  refine ⟨positions.map (skyCutsTest P fp), ?_, by simp, ?_⟩
  · simp [pointsInFootprint, hT]
  · intro i h1 h2
    have := skyCutsTest_eq_true_iff P fp positions[i]
    simp only [SkyCutsInside] at this
    simp [this]

/-- C2 witness at the HLWAS footprint and a concrete position. -/
theorem sky_cuts_membership_w :
    get_hlwas_footprint.ftype = "sky_cuts" ∧
    ∃ bs, pointsInFootprint testPrims [(⟨150, -30⟩ : Pos)] get_hlwas_footprint none = .ok bs ∧
      bs.length = 1 ∧
      ∀ (i : ℕ) (h1 : i < 1) (h2 : i < bs.length),
        (bs[i] = true ↔
          (|testPrims.galLatDeg ([(⟨150, -30⟩ : Pos)])[i]| ≥ get_hlwas_footprint.gal_lat_min ∧
           |testPrims.eclLatDeg ([(⟨150, -30⟩ : Pos)])[i]| ≥ get_hlwas_footprint.ecl_lat_min ∧
           (([(⟨150, -30⟩ : Pos)])[i]).dec ≤ get_hlwas_footprint.dec_max)) :=
  ⟨rfl, sky_cuts_membership testPrims [(⟨150, -30⟩ : Pos)] get_hlwas_footprint rfl⟩

/-- C3: with no mask and a "circles" footprint, a position is classified
inside iff some field of the footprint has great-circle separation from the
position ≤ that field's radius — inclusive boundary, union semantics over
the field list. -/
theorem circles_membership (P : AstroPrims) (positions : List Pos) (fp : Footprint)
    (hT : fp.ftype = "circles") :
    ∃ bs, pointsInFootprint P positions fp none = .ok bs ∧
      bs.length = positions.length ∧
      ∀ (i : ℕ) (h1 : i < positions.length) (h2 : i < bs.length),
        (bs[i] = true ↔
          ∃ f ∈ fp.fields, P.sepDeg positions[i] ⟨f.ra, f.dec⟩ ≤ f.radius_deg) := by
  refine ⟨positions.map (circlesTest P fp.fields), ?_, by simp, ?_⟩
  · simp [pointsInFootprint, hT]
  · intro i h1 h2
    have := circlesTest_eq_true_iff P fp.fields positions[i]
    simp only [CirclesInside] at this
    simp [this]

/-- C3 witness at the HLTDS footprint and a concrete position. -/
theorem circles_membership_w :
    get_hltds_footprint.ftype = "circles" ∧
    ∃ bs, pointsInFootprint testPrims [(⟨242.75, 54.98⟩ : Pos)] get_hltds_footprint none = .ok bs ∧
      bs.length = 1 ∧
      ∀ (i : ℕ) (h1 : i < 1) (h2 : i < bs.length),
        (bs[i] = true ↔
          ∃ f ∈ get_hltds_footprint.fields,
            testPrims.sepDeg ([(⟨242.75, 54.98⟩ : Pos)])[i] ⟨f.ra, f.dec⟩ ≤ f.radius_deg) :=
  ⟨rfl, circles_membership testPrims [(⟨242.75, 54.98⟩ : Pos)] get_hltds_footprint rfl⟩

/-- C5: on every input batch whose footprint or mask is valid (mask present
with healpy available, or footprint type recognised), the membership test
succeeds with a boolean list of exactly the input length, and the i-th
output is the output the engine produces on the singleton batch of the i-th
input position — order and index correspondence are preserved. -/
theorem membership_length_order (P : AstroPrims) (positions : List Pos)
    (fp : Footprint) (mask : Option HealpixMask)
    (hV : match mask with
          | some _ => P.hasHealpy = true
          | none => fp.ftype = "circles" ∨ fp.ftype = "sky_cuts") :
    ∃ bs, pointsInFootprint P positions fp mask = .ok bs ∧
      bs.length = positions.length ∧
      ∀ (i : ℕ) (h1 : i < positions.length) (h2 : i < bs.length),
        pointsInFootprint P [positions[i]] fp mask = .ok [bs[i]] := by
  cases mask with
  | some m =>
      refine ⟨positions.map (maskTest P m), ?_, by simp, ?_⟩
      · simp [pointsInFootprint, hV]
      · intro i h1 h2
        simp [pointsInFootprint, hV]
  | none =>
      rcases hV with hT | hT
      · refine ⟨positions.map (circlesTest P fp.fields), ?_, by simp, ?_⟩
        · simp [pointsInFootprint, hT]
        · intro i h1 h2
          simp [pointsInFootprint, hT]
      · refine ⟨positions.map (skyCutsTest P fp), ?_, by simp, ?_⟩
        · simp [pointsInFootprint, hT]
        · intro i h1 h2
          simp [pointsInFootprint, hT]

/-- C5 witness at a concrete two-element batch. -/
theorem membership_length_order_w :
    (get_hltds_footprint.ftype = "circles" ∨ get_hltds_footprint.ftype = "sky_cuts") ∧
    ∃ bs, pointsInFootprint testPrims [(⟨0, 0⟩ : Pos), ⟨242.75, 54.98⟩] get_hltds_footprint none = .ok bs ∧
      bs.length = 2 ∧
      ∀ (i : ℕ) (h1 : i < 2) (h2 : i < bs.length),
        pointsInFootprint testPrims [([(⟨0, 0⟩ : Pos), ⟨242.75, 54.98⟩])[i]] get_hltds_footprint none = .ok [bs[i]] :=
  ⟨Or.inl rfl, membership_length_order testPrims [(⟨0, 0⟩ : Pos), ⟨242.75, 54.98⟩]
    get_hltds_footprint none (Or.inl rfl)⟩

/-- Registry lookup succeeds on every valid (lower-cased) key, returning the
footprint that `footprintOf` names. -/
theorem get_footprint_valid (P : AstroPrims) (s : String) (h : strLower s ∈ SURVEY_KEYS) :
    get_footprint P s = .ok (footprintOf P s) := by
  simp only [SURVEY_KEYS, List.mem_cons, List.not_mem_nil, or_false] at h
  rcases h with h | h | h <;> simp [get_footprint, footprintOf, h]

/-- Validation finds no invalid key exactly when every key lower-cases into
the supported set. -/
theorem findInvalid_eq_none_iff (supported keys : List String) :
    findInvalid supported keys = none ↔ ∀ k ∈ keys, strLower k ∈ supported := by
  simp [findInvalid, List.find?_eq_none]

/-- The survey loop on validated keys produces the full combination matrix,
surveys outer, catalogs inner. -/
theorem run_surveys_ok (env : PipelineEnv) (opts : PipelineOptions) (m : Option HealpixMask)
    (catalogs : List String) (surveys : List String)
    (h : ∀ s ∈ surveys, strLower s ∈ SURVEY_KEYS) :
    run_surveys env opts m catalogs surveys =
      .ok (surveys.flatMap (fun s =>
        catalogs.map (process_combo env opts m (footprintOf env.prims s) s))) := by
  induction surveys with
  | nil => rfl
  | cons s rest ih =>
      have hs : strLower s ∈ SURVEY_KEYS := h s (List.mem_cons_self s rest)
      have hrest : ∀ x ∈ rest, strLower x ∈ SURVEY_KEYS :=
        fun x hx => h x (List.mem_cons_of_mem s hx)
      simp [run_surveys, get_footprint_valid env.prims s hs, ih hrest]

/-- Length of a rectangular flatMap-of-maps. -/
theorem flatMap_map_length {α β γ : Type} (l : List α) (cs : List β) (g : α → β → γ) :
    (l.flatMap (fun s => cs.map (g s))).length = l.length * cs.length := by
  induction l with
  | nil => simp
  | cons s rest ih =>
      simp only [List.flatMap_cons, List.length_append, List.length_map, ih, List.length_cons]
      ring

/-- C4 (amended): over validated survey and catalog keys (and a loadable
mask when requested), the run returns exactly one MatchResult per (survey,
catalog) pair of the resolved lists — surveys outer loop, catalogs inner,
N×M records in total; a fetch exception is recorded on that combination's
record as error = some of the exception's message (which may be empty) with
zero counts, a membership-filter exception likewise with zero matched
count, and neither aborts the run. -/
theorem pipeline_full_matrix (env : PipelineEnv) (opts : PipelineOptions)
    (hs : ∀ s ∈ resolveSurveys opts, strLower s ∈ SURVEY_KEYS)
    (hc : ∀ c ∈ resolveCatalogs opts, strLower c ∈ CATALOG_KEYS)
    (hm : ∀ p, opts.mask_path = some p → ∃ mk, env.loadMask p = .ok mk) :
    (run_pipeline env opts = .ok ((resolveSurveys opts).flatMap (fun s =>
        (resolveCatalogs opts).map
          (process_combo env opts (maskOf env opts) (footprintOf env.prims s) s)))) ∧
    (∀ results, run_pipeline env opts = .ok results →
        results.length = (resolveSurveys opts).length * (resolveCatalogs opts).length) ∧
    (∀ s c fpX mX msg,
        env.fetchCatalog c opts.row_limit fpX mX opts.custom_file opts.custom_ra_col
          opts.custom_dec_col = .error msg →
        process_combo env opts mX fpX s c =
          { survey := s, catalog := c, n_retrieved := 0, n_matched := 0,
            fits_path := "", csv_path := "", error := some msg }) ∧
    (∀ s c fpX mX table msg, c ≠ "ned" →
        env.fetchCatalog c opts.row_limit fpX mX opts.custom_file opts.custom_ra_col
          opts.custom_dec_col = .ok (some table) →
        table ≠ [] →
        pointsInFootprint env.prims table fpX mX = .error msg →
        process_combo env opts mX fpX s c =
          { survey := s, catalog := c, n_retrieved := table.length, n_matched := 0,
            fits_path := "", csv_path := "", error := some msg }) := by
  have hsN : findInvalid SURVEY_KEYS (resolveSurveys opts) = none :=
    (findInvalid_eq_none_iff _ _).mpr hs
  have hcN : findInvalid CATALOG_KEYS (resolveCatalogs opts) = none :=
    (findInvalid_eq_none_iff _ _).mpr hc
  have hmain : run_pipeline env opts = .ok ((resolveSurveys opts).flatMap (fun s =>
      (resolveCatalogs opts).map
        (process_combo env opts (maskOf env opts) (footprintOf env.prims s) s))) := by
    cases hmp : opts.mask_path with
    | none =>
        simp [run_pipeline, hsN, hcN, hmp, maskOf,
          run_surveys_ok env opts none _ _ hs]
    | some p =>
        obtain ⟨mk, hmk⟩ := hm p hmp
        simp [run_pipeline, hsN, hcN, hmp, hmk, maskOf, Except.toOption,
          run_surveys_ok env opts (some mk) _ _ hs]
  refine ⟨hmain, ?_, ?_, ?_⟩
  · intro results hres
    rw [hmain] at hres
    injection hres with h
    rw [← h]
    exact flatMap_map_length _ _ _
  · intro s c fpX mX msg hf
    simp [process_combo, hf]
  · intro s c fpX mX table msg hcne hf hne hpts
    have hlen : ¬ table.length = 0 := by simpa [List.length_eq_zero] using hne
    simp [process_combo, hf, hlen, hcne, hpts, Except.map]

/-- C4 counterexample to the claim as stated: a fetch adapter that raises an
exception whose message is empty (Python `raise Exception("")`, for which
`str(exc)` is `""`) yields a MatchResult whose recorded error string is
empty, contradicting the claim that the recorded error string is non-empty. -/
theorem pipeline_error_string_may_be_empty :
    run_pipeline emptyMsgEnv oneComboOpts =
      .ok [{ survey := "hlwas", catalog := "abell", n_retrieved := 0, n_matched := 0,
             fits_path := "", csv_path := "", error := some "" }] := by
  rfl

/-- C4 witness at a concrete one-combination run. -/
theorem pipeline_full_matrix_w :
    (∀ s ∈ resolveSurveys oneComboOpts, strLower s ∈ SURVEY_KEYS) ∧
    (∀ c ∈ resolveCatalogs oneComboOpts, strLower c ∈ CATALOG_KEYS) ∧
    (∀ p, oneComboOpts.mask_path = some p → ∃ mk, okEnv.loadMask p = .ok mk) ∧
    run_pipeline okEnv oneComboOpts = .ok ((resolveSurveys oneComboOpts).flatMap (fun s =>
      (resolveCatalogs oneComboOpts).map
        (process_combo okEnv oneComboOpts (maskOf okEnv oneComboOpts)
          (footprintOf okEnv.prims s) s))) :=
  ⟨by decide, by decide, fun p h => by simp [oneComboOpts] at h,
    (pipeline_full_matrix okEnv oneComboOpts (by decide) (by decide)
      (fun p h => by simp [oneComboOpts] at h)).1⟩

/-- C6 counterexample to the claim as stated: with an external mask supplied
for the whole run, the fetch call of the (hlwas, abell) combination still
receives the registry-resolved footprint — the record carries the registry
name HLWAS, observable only if the FootprintRegistry lookup was performed,
so the lookup is not skipped. -/
theorem mask_run_lookup_not_skipped :
    run_pipeline fpProbeEnv maskRunOpts =
      .ok [{ survey := "hlwas", catalog := "abell", n_retrieved := 0, n_matched := 0,
             fits_path := "", csv_path := "",
             error := some "fetch saw footprint HLWAS" }] := by
  rfl

/-- C6 (amended): when an external mask is supplied and loads, the survey
footprint is still resolved through the registry for every survey of the run
and handed to each combination (fetch and output naming), while the
membership test itself ignores the footprint entirely — its result is
identical for every footprint once a mask is present. -/
theorem mask_run_resolves_footprints (env : PipelineEnv) (opts : PipelineOptions)
    (p : String) (mk : HealpixMask)
    (hp : opts.mask_path = some p) (hl : env.loadMask p = .ok mk)
    (hs : ∀ s ∈ resolveSurveys opts, strLower s ∈ SURVEY_KEYS)
    (hc : ∀ c ∈ resolveCatalogs opts, strLower c ∈ CATALOG_KEYS) :
    (run_pipeline env opts = .ok ((resolveSurveys opts).flatMap (fun s =>
        (resolveCatalogs opts).map
          (process_combo env opts (some mk) (footprintOf env.prims s) s)))) ∧
    (∀ positions fp fp', pointsInFootprint env.prims positions fp (some mk) =
        pointsInFootprint env.prims positions fp' (some mk)) := by
  refine ⟨?_, fun _ _ _ => rfl⟩
  have hsN : findInvalid SURVEY_KEYS (resolveSurveys opts) = none :=
    (findInvalid_eq_none_iff _ _).mpr hs
  have hcN : findInvalid CATALOG_KEYS (resolveCatalogs opts) = none :=
    (findInvalid_eq_none_iff _ _).mpr hc
  simp [run_pipeline, hsN, hcN, hp, hl, run_surveys_ok env opts (some mk) _ _ hs]

/-- C6 amended-claim witness at a concrete masked run. -/
theorem mask_run_resolves_footprints_w :
    maskRunOpts.mask_path = some "mask.fits" ∧
    fpProbeEnv.loadMask "mask.fits" = .ok testMask ∧
    (∀ s ∈ resolveSurveys maskRunOpts, strLower s ∈ SURVEY_KEYS) ∧
    (∀ c ∈ resolveCatalogs maskRunOpts, strLower c ∈ CATALOG_KEYS) ∧
    run_pipeline fpProbeEnv maskRunOpts =
      .ok ((resolveSurveys maskRunOpts).flatMap (fun s =>
        (resolveCatalogs maskRunOpts).map
          (process_combo fpProbeEnv maskRunOpts (some testMask)
            (footprintOf fpProbeEnv.prims s) s))) :=
  ⟨rfl, rfl, by decide, by decide,
    (mask_run_resolves_footprints fpProbeEnv maskRunOpts "mask.fits" testMask rfl rfl
      (by decide) (by decide)).1⟩

/-- C7: the "ned" combination trusts the pre-filtered fetch result as-is —
the record counts every retrieved row as matched, the retrieved rows are
handed unfiltered to the output writer, and the combination's outcome does
not depend on the engine primitives at all (the membership test is never
invoked); for every other catalog key the membership test result is applied
and only the selected rows are retained and written. -/
theorem ned_prefilter_trusted (env : PipelineEnv) (opts : PipelineOptions)
    (m : Option HealpixMask) (fp : Footprint) (s : String) (table : List Pos)
    (hne : table ≠ []) :
    (env.fetchCatalog "ned" opts.row_limit fp m opts.custom_file opts.custom_ra_col
        opts.custom_dec_col = .ok (some table) →
      process_combo env opts m fp s "ned" =
        { survey := s, catalog := "ned", n_retrieved := table.length,
          n_matched := table.length,
          fits_path := (env.writeOutputs (env.ensureRequiredColumns table "ned")
            fp.name "ned" opts.output_dir).1,
          csv_path := (env.writeOutputs (env.ensureRequiredColumns table "ned")
            fp.name "ned" opts.output_dir).2,
          error := none } ∧
      ∀ P', process_combo { env with prims := P' } opts m fp s "ned" =
            process_combo env opts m fp s "ned") ∧
    (∀ c inside, c ≠ "ned" →
      env.fetchCatalog c opts.row_limit fp m opts.custom_file opts.custom_ra_col
        opts.custom_dec_col = .ok (some table) →
      pointsInFootprint env.prims table fp m = .ok inside →
      process_combo env opts m fp s c =
        (if (selectRows table inside).length = 0 then
          { survey := s, catalog := c, n_retrieved := table.length, n_matched := 0,
            fits_path := "", csv_path := "", error := none }
        else
          { survey := s, catalog := c, n_retrieved := table.length,
            n_matched := (selectRows table inside).length,
            fits_path := (env.writeOutputs
              (env.ensureRequiredColumns (selectRows table inside) c)
              fp.name c opts.output_dir).1,
            csv_path := (env.writeOutputs
              (env.ensureRequiredColumns (selectRows table inside) c)
              fp.name c opts.output_dir).2,
            error := none })) := by
  have hlen : ¬ table.length = 0 := by simpa [List.length_eq_zero] using hne
  constructor
  · intro hf
    constructor
    · simp [process_combo, hf, hlen]
    · intro P'
      simp [process_combo, hf, hlen]
  · intro c inside hcne hf hpts
    simp [process_combo, hf, hlen, hcne, hpts, Except.map]

/-- C7 witness at a concrete one-row fetch for the ned catalog. -/
theorem ned_prefilter_trusted_w :
    ([(⟨1, 2⟩ : Pos)] ≠ ([] : List Pos)) ∧
    process_combo oneRowEnv defaultOpts none get_hlwas_footprint "hlwas" "ned" =
      { survey := "hlwas", catalog := "ned", n_retrieved := 1, n_matched := 1,
        fits_path := "f.fits", csv_path := "f.csv", error := none } :=
  ⟨by simp,
    ((ned_prefilter_trusted oneRowEnv defaultOpts none get_hlwas_footprint "hlwas"
      [(⟨1, 2⟩ : Pos)] (by simp)).1 rfl).1⟩

/-- C8: an unknown survey key, an unknown catalog key, or a failing mask
load makes the run raise: the result is an error, no MatchResult list is
produced, and the outcome is the same for every fetch adapter — no (survey,
catalog) combination is ever executed. -/
theorem pipeline_fail_fast (env : PipelineEnv) (opts : PipelineOptions)
    (h : (∃ s ∈ resolveSurveys opts, strLower s ∉ SURVEY_KEYS) ∨
         (∃ c ∈ resolveCatalogs opts, strLower c ∉ CATALOG_KEYS) ∨
         (∃ p e, opts.mask_path = some p ∧ env.loadMask p = .error e)) :
    (∃ msg, run_pipeline env opts = .error msg) ∧
    (∀ f, run_pipeline { env with fetchCatalog := f } opts = run_pipeline env opts) := by
  cases hS : findInvalid SURVEY_KEYS (resolveSurveys opts) with
  | some s =>
      exact ⟨⟨"Unknown survey " ++ s, by simp [run_pipeline, hS]⟩,
        fun f => by simp [run_pipeline, hS]⟩
  | none =>
      have hs' : ∀ k ∈ resolveSurveys opts, strLower k ∈ SURVEY_KEYS :=
        (findInvalid_eq_none_iff _ _).mp hS
      cases hC : findInvalid CATALOG_KEYS (resolveCatalogs opts) with
      | some c =>
          exact ⟨⟨"Unknown catalog " ++ c, by simp [run_pipeline, hS, hC]⟩,
            fun f => by simp [run_pipeline, hS, hC]⟩
      | none =>
          have hc' : ∀ k ∈ resolveCatalogs opts, strLower k ∈ CATALOG_KEYS :=
            (findInvalid_eq_none_iff _ _).mp hC
          rcases h with ⟨s, hs1, hs2⟩ | ⟨c, hc1, hc2⟩ | ⟨p, e, hp, he⟩
          · exact absurd (hs' s hs1) hs2
          · exact absurd (hc' c hc1) hc2
          · exact ⟨⟨e, by simp [run_pipeline, hS, hC, hp, he]⟩,
              fun f => by simp [run_pipeline, hS, hC, hp, he]⟩

/-- C8 witness at a concrete run with an unknown survey key. -/
theorem pipeline_fail_fast_w :
    ((∃ s ∈ resolveSurveys badKeyOpts, strLower s ∉ SURVEY_KEYS) ∨
     (∃ c ∈ resolveCatalogs badKeyOpts, strLower c ∉ CATALOG_KEYS) ∨
     (∃ p e, badKeyOpts.mask_path = some p ∧ okEnv.loadMask p = .error e)) ∧
    ((∃ msg, run_pipeline okEnv badKeyOpts = .error msg) ∧
     (∀ f, run_pipeline { okEnv with fetchCatalog := f } badKeyOpts =
        run_pipeline okEnv badKeyOpts)) :=
  ⟨Or.inl ⟨"nope", by decide, by decide⟩,
    pipeline_fail_fast okEnv badKeyOpts (Or.inl ⟨"nope", by decide, by decide⟩)⟩

/-- C9: the registry lookup is case-insensitive and pure: on every key whose
lower-cased form is in the supported set it returns a footprint with a
non-empty name and a recognised type tag ("sky_cuts" or "circles"); on every
other key it fails with the unknown-survey error. -/
theorem footprint_lookup_spec (P : AstroPrims) (key : String) :
    (strLower key ∈ SURVEY_KEYS →
      ∃ fp, get_footprint P key = .ok fp ∧ fp.name ≠ "" ∧
        (fp.ftype = "sky_cuts" ∨ fp.ftype = "circles")) ∧
    (strLower key ∉ SURVEY_KEYS → ∃ e, get_footprint P key = .error e) := by
  constructor
  · intro h
    simp only [SURVEY_KEYS, List.mem_cons, List.not_mem_nil, or_false] at h
    rcases h with h | h | h
    · exact ⟨get_hlwas_footprint, by simp [get_footprint, h],
        by simp [get_hlwas_footprint], Or.inl rfl⟩
    · exact ⟨get_hltds_footprint, by simp [get_footprint, h],
        by simp [get_hltds_footprint], Or.inr rfl⟩
    · exact ⟨get_gbtds_footprint P, by simp [get_footprint, h],
        by simp [get_gbtds_footprint], Or.inr rfl⟩
  · intro h
    simp only [SURVEY_KEYS, List.mem_cons, List.not_mem_nil, or_false, not_or] at h
    exact ⟨"Unknown survey " ++ key, by simp [get_footprint, h.1, h.2.1, h.2.2]⟩

/-- C9 witness at an upper-cased valid key and at an invalid key. -/
theorem footprint_lookup_spec_w :
    (strLower "HLWAS" ∈ SURVEY_KEYS ∧
      ∃ fp, get_footprint testPrims "HLWAS" = .ok fp ∧ fp.name ≠ "" ∧
        (fp.ftype = "sky_cuts" ∨ fp.ftype = "circles")) ∧
    (strLower "nope" ∉ SURVEY_KEYS ∧
      ∃ e, get_footprint testPrims "nope" = .error e) :=
  ⟨⟨by decide, (footprint_lookup_spec testPrims "HLWAS").1 (by decide)⟩,
   ⟨by decide, (footprint_lookup_spec testPrims "nope").2 (by decide)⟩⟩

/-- C10: the "all" shorthand expands the catalog list to every supported
key except "custom"; "custom" ends up in the resolved list exactly when it
is explicitly listed in the requested catalogs and — in the "all" case — a
custom-catalog file path is also supplied. -/
theorem resolve_catalogs_spec (opts : PipelineOptions) :
    ("all" ∈ opts.catalogs →
      resolveCatalogs opts = ["abell", "sdss", "2masx", "ngc", "ned"] ++
        (if "custom" ∈ opts.catalogs ∧ opts.custom_file.isSome then ["custom"] else [])) ∧
    ("custom" ∈ resolveCatalogs opts ↔
      "custom" ∈ opts.catalogs ∧ ("all" ∈ opts.catalogs → opts.custom_file.isSome)) := by
  by_cases hA : "all" ∈ opts.catalogs <;> by_cases hC : "custom" ∈ opts.catalogs <;>
    by_cases hF : opts.custom_file.isSome <;>
      simp [resolveCatalogs, CATALOG_KEYS, hA, hC, hF]

/-- C10 witness at a concrete "all" plus "custom" request with a file. -/
theorem resolve_catalogs_spec_w :
    "all" ∈ allCustomOpts.catalogs ∧
    resolveCatalogs allCustomOpts = ["abell", "sdss", "2masx", "ngc", "ned"] ++
      (if "custom" ∈ allCustomOpts.catalogs ∧ allCustomOpts.custom_file.isSome
       then ["custom"] else []) :=
  ⟨by decide, (resolve_catalogs_spec allCustomOpts).1 (by decide)⟩
